import Mathlib

/-!
Shallow embedding of the terminal-session core of `promptconduit/app`
(`src/tauri/src-tauri/src/terminal/mod.rs` and
`src/tauri/src-tauri/src/commands/terminal.rs`).

The Rust code manages PTY-backed terminal sessions: a `SessionManager`
holds a `RwLock<HashMap<String, Arc<TerminalSession>>>`; `create_session`
opens a PTY, spawns a command, registers the session under a fresh UUID
and starts a background output-forwarding thread (`stream_output`);
`write`/`resize`/`close` look sessions up by identifier.

The embedding makes the OS interactions explicit: every fallible OS step
(PTY allocation, spawn, handle acquisition, write, flush, resize, read)
receives its outcome from an environment record, and every operation
additionally returns the trace of OS calls it issued, so that theorems can
speak about exactly which bytes and geometries reach the OS layer.
Machine strings stay `String`; raw bytes are `Nat` values below 256.
-/

deriving instance DecidableEq for Except

namespace PromptConduit

/-- The `PtySize` structure passed to `openpty` and `MasterPty::resize`
(fields in the order of the Rust struct literal at the call sites). -/
structure PtySize where
  rows : Nat
  cols : Nat
  pixel_width : Nat
  pixel_height : Nat
deriving Repr, DecidableEq

/-- Structured view of the error strings produced by `terminal/mod.rs`.
The Rust code reports every failure as a `String`; the constructors below
record which formatting site produced the string, matching the spec's
error taxonomy (NotFoundError / SpawnError / IoError). `message` recovers
the exact string the Rust code builds. -/
inductive TermError where
  | notFound
  | spawnError (msg : String)
  | ioError (msg : String)
deriving Repr, DecidableEq

/-- The literal error string each `TermError` stands for in the source. -/
def TermError.message : TermError → String
  | .notFound => "Session not found"
  | .spawnError msg => msg
  | .ioError msg => msg

/-- An OS-level call issued by the session layer, recorded in traces. -/
inductive OsCall where
  | openPty (size : PtySize)
  | spawn (command : String) (args : List String) (cwd : String)
      (envOverlay : List (String × String))
  | takeWriter
  | cloneReader
  | writeBytes (data : List Nat)
  | flush
  | ptyResize (size : PtySize)
deriving Repr, DecidableEq

/-- State of the session's exclusively owned input handle (the boxed
writer obtained from `master.take_writer()`): bytes already delivered to
the subordinate process and bytes still sitting in the writer's buffer. -/
structure WriterState where
  delivered : List Nat
  buffered : List Nat
deriving Repr, DecidableEq

/-- Embedding of `TerminalSession`: the identifier, the guarded writer
state, and the list of `PtySize` values the OS accepted via the master
(control) handle. -/
structure TerminalSession where
  id : String
  writer : WriterState
  masterResizes : List PtySize
deriving Repr, DecidableEq

/-- Outcomes of the two fallible OS steps inside `TerminalSession::write`
(`writer.write_all(data)` and `writer.flush()`). -/
structure IoEnv where
  writeRes : Except String Unit
  flushRes : Except String Unit
deriving Repr, DecidableEq

/-- Embedding of `TerminalSession::write`: `write_all(data)` moves the
bytes into the writer, then `flush` moves everything buffered to the
subordinate process; each step fails with the `format!` message of the
source. Returns the call result, the session state after the call, and
the OS calls issued. -/
def TerminalSession.write (s : TerminalSession) (data : List Nat)
    (env : IoEnv) : Except TermError Unit × TerminalSession × List OsCall :=
  match env.writeRes with
  | .error e => (.error (.ioError ("Failed to write: " ++ e)), s, [.writeBytes data])
  | .ok _ =>
    let s1 : TerminalSession :=
      { s with writer := { s.writer with buffered := s.writer.buffered ++ data } }
    match env.flushRes with
    | .error e =>
        (.error (.ioError ("Failed to flush: " ++ e)), s1, [.writeBytes data, .flush])
    | .ok _ =>
        (.ok (),
         { s1 with writer :=
            { delivered := s1.writer.delivered ++ s1.writer.buffered, buffered := [] } },
         [.writeBytes data, .flush])

/-- Embedding of `TerminalSession::resize`: passes `PtySize { rows, cols,
pixel_width: 0, pixel_height: 0 }` to the master handle; the OS outcome
is supplied by `res`. -/
def TerminalSession.resize (s : TerminalSession) (cols rows : Nat)
    (res : Except String Unit) : Except TermError Unit × TerminalSession × List OsCall :=
  match res with
  | .error e =>
      (.error (.ioError ("Failed to resize: " ++ e)), s, [.ptyResize ⟨rows, cols, 0, 0⟩])
  | .ok _ =>
      (.ok (),
       { s with masterResizes := s.masterResizes ++ [⟨rows, cols, 0, 0⟩] },
       [.ptyResize ⟨rows, cols, 0, 0⟩])

/-- The registry mapping, `HashMap<String, Arc<TerminalSession>>`,
modelled as an association list with lookup by string equality. -/
abbrev Registry := List (String × TerminalSession)

/-- Lookup, embedding `sessions.get(session_id)`. -/
def Registry.get? : Registry → String → Option TerminalSession
  | [], _ => none
  | (k, s) :: rest, sid => if k = sid then some s else Registry.get? rest sid

/-- Remove every binding of a key, embedding `sessions.remove(session_id)`
(on a map whose keys are unique this is removal of the one binding). -/
def Registry.eraseKey : Registry → String → Registry
  | [], _ => []
  | (k, s) :: rest, sid =>
      if k = sid then Registry.eraseKey rest sid
      else (k, s) :: Registry.eraseKey rest sid

/-- Insert, embedding `sessions.insert(id, session)`: the new binding
replaces any previous binding of the same key. -/
def Registry.insert (m : Registry) (sid : String) (s : TerminalSession) : Registry :=
  (sid, s) :: Registry.eraseKey m sid

/-- Outcomes of the fallible steps of `SessionManager::create_session`
(PTY allocation, spawn, `take_writer`, `try_clone_reader`) together with
the identifier `uuid::Uuid::new_v4().to_string()` would produce. -/
structure SpawnEnv where
  openRes : Except String Unit
  spawnRes : Except String Unit
  writerRes : Except String Unit
  readerRes : Except String Unit
  freshId : String
deriving Repr, DecidableEq

/-- Everything observable about one `create_session` call: its result,
the registry afterwards, the OS calls issued, and the identifiers whose
output-forwarding task was started. -/
structure CreateOutcome where
  result : Except TermError String
  registry : Registry
  calls : List OsCall
  tasksStarted : List String
deriving Repr, DecidableEq

/-- The fixed environment overlay `cmd.env(...)` applies to every spawn. -/
def envOverlay : List (String × String) :=
  [("TERM", "xterm-256color"), ("COLORTERM", "truecolor"), ("LANG", "en_US.UTF-8")]

/-- The fixed geometry passed to `openpty`. -/
def initialPtySize : PtySize := ⟨24, 80, 0, 0⟩

/-- Embedding of `SessionManager::create_session`: open the PTY at the
fixed 80x24 geometry, build the command with the caller's working
directory and the fixed environment overlay, spawn it, obtain the writer
and reader handles, generate the identifier, insert the session and start
the forwarding task. Each step aborts with the source's `format!` message
and leaves the registry untouched. -/
def SessionManager.create_session (m : Registry) (working_directory command : String)
    (args : List String) (env : SpawnEnv) : CreateOutcome :=
  match env.openRes with
  | .error e =>
      ⟨.error (.spawnError ("Failed to open PTY: " ++ e)), m,
        [.openPty initialPtySize], []⟩
  | .ok _ =>
    match env.spawnRes with
    | .error e =>
        ⟨.error (.spawnError ("Failed to spawn command: " ++ e)), m,
          [.openPty initialPtySize, .spawn command args working_directory envOverlay], []⟩
    | .ok _ =>
      match env.writerRes with
      | .error e =>
          ⟨.error (.spawnError ("Failed to get writer: " ++ e)), m,
            [.openPty initialPtySize, .spawn command args working_directory envOverlay,
             .takeWriter], []⟩
      | .ok _ =>
        match env.readerRes with
        | .error e =>
            ⟨.error (.spawnError ("Failed to get reader: " ++ e)), m,
              [.openPty initialPtySize, .spawn command args working_directory envOverlay,
               .takeWriter, .cloneReader], []⟩
        | .ok _ =>
          let id := env.freshId
          let session : TerminalSession := ⟨id, ⟨[], []⟩, []⟩
          ⟨.ok id, Registry.insert m id session,
            [.openPty initialPtySize, .spawn command args working_directory envOverlay,
             .takeWriter, .cloneReader], [id]⟩

/-- Embedding of `SessionManager::write`: look the session up under the
read lock, fail with "Session not found" when absent, otherwise delegate
to `TerminalSession.write` (the session's new state replaces the old
binding, mirroring in-place mutation through the shared `Arc`). -/
def SessionManager.write (m : Registry) (session_id : String) (data : List Nat)
    (env : IoEnv) : Except TermError Unit × Registry × List OsCall :=
  match Registry.get? m session_id with
  | none => (.error .notFound, m, [])
  | some s =>
    let (r, s', calls) := TerminalSession.write s data env
    (r, Registry.insert m session_id s', calls)

/-- Embedding of `SessionManager::resize`: lookup under the read lock,
then delegate to `TerminalSession.resize`. -/
def SessionManager.resize (m : Registry) (session_id : String) (cols rows : Nat)
    (res : Except String Unit) : Except TermError Unit × Registry × List OsCall :=
  match Registry.get? m session_id with
  | none => (.error .notFound, m, [])
  | some s =>
    let (r, s', calls) := TerminalSession.resize s cols rows res
    (r, Registry.insert m session_id s', calls)

/-- Embedding of `SessionManager::close`: remove the binding under the
write lock; `remove` returning `None` becomes "Session not found". -/
def SessionManager.close (m : Registry) (session_id : String) :
    Except TermError Unit × Registry :=
  match Registry.get? m session_id with
  | none => (.error .notFound, m)
  | some _ => (.ok (), Registry.eraseKey m session_id)

/-- The Unicode replacement character U+FFFD. -/
def replacementChar : Char := '�'

/-- Continuation-byte test, `0x80..=0xBF`. -/
def isCont (b : Nat) : Bool := 0x80 ≤ b && b ≤ 0xBF

/-- Admissible second byte of a three-byte sequence for a given leading
byte (rules out overlong encodings for `0xE0` and surrogates for `0xED`). -/
def validSecondOf3 (b0 b1 : Nat) : Bool :=
  if b0 = 0xE0 then 0xA0 ≤ b1 && b1 ≤ 0xBF
  else if b0 = 0xED then 0x80 ≤ b1 && b1 ≤ 0x9F
  else isCont b1

/-- Admissible second byte of a four-byte sequence for a given leading
byte (rules out overlong encodings for `0xF0` and values above U+10FFFF
for `0xF4`). -/
def validSecondOf4 (b0 b1 : Nat) : Bool :=
  if b0 = 0xF0 then 0x90 ≤ b1 && b1 ≤ 0xBF
  else if b0 = 0xF4 then 0x80 ≤ b1 && b1 ≤ 0x8F
  else isCont b1

/-- Embedding of Rust's `String::from_utf8_lossy` on a byte list: decode
UTF-8, substituting U+FFFD for each maximal prefix of a valid sequence
(WHATWG substitution-of-maximal-subparts, as implemented by `std`). -/
def utf8DecodeLossy : List Nat → List Char
  | [] => []
  | b0 :: rest =>
    if b0 < 0x80 then Char.ofNat b0 :: utf8DecodeLossy rest
    else if b0 < 0xC2 then replacementChar :: utf8DecodeLossy rest
    else if b0 < 0xE0 then
      match rest with
      | [] => [replacementChar]
      | b1 :: rest2 =>
        if isCont b1 then
          Char.ofNat ((b0 - 0xC0) * 0x40 + (b1 - 0x80)) :: utf8DecodeLossy rest2
        else replacementChar :: utf8DecodeLossy (b1 :: rest2)
    else if b0 < 0xF0 then
      match rest with
      | [] => [replacementChar]
      | b1 :: rest2 =>
        if validSecondOf3 b0 b1 then
          match rest2 with
          | [] => [replacementChar]
          | b2 :: rest3 =>
            if isCont b2 then
              Char.ofNat ((b0 - 0xE0) * 0x1000 + (b1 - 0x80) * 0x40 + (b2 - 0x80)) ::
                utf8DecodeLossy rest3
            else replacementChar :: utf8DecodeLossy (b2 :: rest3)
        else replacementChar :: utf8DecodeLossy (b1 :: rest2)
    else if b0 < 0xF5 then
      match rest with
      | [] => [replacementChar]
      | b1 :: rest2 =>
        if validSecondOf4 b0 b1 then
          match rest2 with
          | [] => [replacementChar]
          | b2 :: rest3 =>
            if isCont b2 then
              match rest3 with
              | [] => [replacementChar]
              | b3 :: rest4 =>
                if isCont b3 then
                  Char.ofNat ((b0 - 0xF0) * 0x40000 + (b1 - 0x80) * 0x1000 +
                      (b2 - 0x80) * 0x40 + (b3 - 0x80)) :: utf8DecodeLossy rest4
                else replacementChar :: utf8DecodeLossy (b3 :: rest4)
            else replacementChar :: utf8DecodeLossy (b2 :: rest3)
        else replacementChar :: utf8DecodeLossy (b1 :: rest2)
    else replacementChar :: utf8DecodeLossy rest
termination_by l => l.length
decreasing_by all_goals simp_arith

/-- The string `String::from_utf8_lossy(&buffer[..n]).to_string()` yields. -/
def from_utf8_lossy (bytes : List Nat) : String := ⟨utf8DecodeLossy bytes⟩

/-- One outcome of `reader.read(&mut buffer)`: `ok data` is `Ok(n)` with
the `n` bytes read (`n = 0`, i.e. `data = []`, is end-of-stream), `err` a
read error. -/
inductive ReadResult where
  | ok (data : List Nat)
  | err (msg : String)
deriving Repr, DecidableEq

/-- An event emitted to the frontend via `app.emit`. -/
inductive Event where
  | output (name : String) (payload : String)
  | closed (name : String)
deriving Repr, DecidableEq

/-- The event name `format!("terminal-output-{}", session_id)`. -/
def outputEventName (session_id : String) : String := "terminal-output-" ++ session_id

/-- The event name `format!("terminal-closed-{}", session_id)`. -/
def closedEventName (session_id : String) : String := "terminal-closed-" ++ session_id

/-- Whether a read result makes `stream_output` emit the closed event and
break out of its loop (`Ok(0)` or `Err(_)`). -/
def ReadResult.isTerminal : ReadResult → Bool
  | .ok [] => true
  | .ok _ => false
  | .err _ => true

/-- The bytes a read result carries (empty for errors). -/
def ReadResult.bytes : ReadResult → List Nat
  | .ok d => d
  | .err _ => []

/-- Embedding of `SessionManager::stream_output`: the loop body over the
successive results of `reader.read`, given as a list (the list ending
without a terminal result models a reader still blocked in `read`).
Nonempty chunks emit one output event with the lossy-decoded payload;
`Ok(0)` and `Err(_)` emit the closed event and break. -/
def stream_output (session_id : String) : List ReadResult → List Event
  | [] => []
  | r :: rest =>
    match r with
    | .ok [] => [.closed (closedEventName session_id)]
    | .ok data =>
        .output (outputEventName session_id) (from_utf8_lossy data) ::
          stream_output session_id rest
    | .err _ => [.closed (closedEventName session_id)]

/-- The events one iteration of the `stream_output` loop emits. -/
def stream_output_step (session_id : String) : ReadResult → List Event
  | .ok [] => [.closed (closedEventName session_id)]
  | .ok data => [.output (outputEventName session_id) (from_utf8_lossy data)]
  | .err _ => [.closed (closedEventName session_id)]

/-- Global observable state: the registry plus the stream of emitted
events. -/
structure World where
  registry : Registry
  events : List Event
deriving Repr, DecidableEq

/-- The operations that can touch the registry or emit events: the four
`SessionManager` entry points plus one read-iteration of a session's
output-forwarding task. -/
inductive RegOp where
  | create (working_directory command : String) (args : List String) (env : SpawnEnv)
  | write (session_id : String) (data : List Nat) (env : IoEnv)
  | resize (session_id : String) (cols rows : Nat) (res : Except String Unit)
  | close (session_id : String)
  | taskRead (session_id : String) (r : ReadResult)
deriving Repr, DecidableEq

/-- Result of one operation as observed by its caller. -/
inductive OpResult where
  | okId (id : String)
  | okUnit
  | failed (e : TermError)
deriving Repr, DecidableEq

/-- One step of the system: apply an operation to the world. -/
def World.step (w : World) : RegOp → World × OpResult
  | .create wd cmd args env =>
    let o := SessionManager.create_session w.registry wd cmd args env
    ({ w with registry := o.registry },
     match o.result with | .ok id => .okId id | .error e => .failed e)
  | .write sid data env =>
    let r := SessionManager.write w.registry sid data env
    ({ w with registry := r.2.1 },
     match r.1 with | .ok _ => .okUnit | .error e => .failed e)
  | .resize sid cols rows res =>
    let r := SessionManager.resize w.registry sid cols rows res
    ({ w with registry := r.2.1 },
     match r.1 with | .ok _ => .okUnit | .error e => .failed e)
  | .close sid =>
    let r := SessionManager.close w.registry sid
    ({ w with registry := r.2 },
     match r.1 with | .ok _ => .okUnit | .error e => .failed e)
  | .taskRead sid r =>
    ({ w with events := w.events ++ stream_output_step sid r }, .okUnit)

/-- Access mode of the `RwLock` guarding the registry. -/
inductive LockMode where
  | shared
  | exclusive
deriving Repr, DecidableEq

/-- Which registry-lock mode each operation acquires in the source:
`write` and `resize` call `self.sessions.read()`, `create_session` and
`close` call `self.sessions.write()`, and the forwarding task never
touches the lock (it owns a cloned reader handle). -/
def RegOp.registryLock : RegOp → Option LockMode
  | .create .. => some .exclusive
  | .write .. => some .shared
  | .resize .. => some .shared
  | .close .. => some .exclusive
  | .taskRead .. => none

/-- RwLock admission: two lock acquisitions may hold the lock at the same
time exactly when both are shared. -/
def LockMode.compatible : LockMode → LockMode → Bool
  | .shared, .shared => true
  | _, _ => false

/-- UTF-8 encoding of one Unicode scalar value given as a number. -/
def utf8EncodeScalar (v : Nat) : List Nat :=
  if v < 0x80 then [v]
  else if v < 0x800 then [0xC0 + v / 0x40, 0x80 + v % 0x40]
  else if v < 0x10000 then
    [0xE0 + v / 0x1000, 0x80 + (v / 0x40) % 0x40, 0x80 + v % 0x40]
  else
    [0xF0 + v / 0x40000, 0x80 + (v / 0x1000) % 0x40, 0x80 + (v / 0x40) % 0x40,
     0x80 + v % 0x40]

/-- UTF-8 encoding of one character, as `str::as_bytes` produces it. -/
def utf8EncodeChar (c : Char) : List Nat := utf8EncodeScalar c.toNat

/-- The byte sequence `data.as_bytes()` of a Rust `String`. -/
def utf8Encode (s : String) : List Nat :=
  s.data.foldr (fun c acc => utf8EncodeChar c ++ acc) []

/-- Validity of a byte list as UTF-8 (the property `String::from_utf8`
checks): an independent checker used to state that the command layer can
only deliver valid UTF-8. -/
def validUtf8 : List Nat → Bool
  | [] => true
  | b0 :: rest =>
    if b0 < 0x80 then validUtf8 rest
    else if b0 < 0xC2 then false
    else if b0 < 0xE0 then
      match rest with
      | [] => false
      | b1 :: rest2 => isCont b1 && validUtf8 rest2
    else if b0 < 0xF0 then
      match rest with
      | [] => false
      | b1 :: rest2 =>
        match rest2 with
        | [] => false
        | b2 :: rest3 => validSecondOf3 b0 b1 && isCont b2 && validUtf8 rest3
    else if b0 < 0xF5 then
      match rest with
      | [] => false
      | b1 :: rest2 =>
        match rest2 with
        | [] => false
        | b2 :: rest3 =>
          match rest3 with
          | [] => false
          | b3 :: rest4 =>
              validSecondOf4 b0 b1 && isCont b2 && isCont b3 && validUtf8 rest4
    else false

/-- Embedding of the Tauri command `terminal_write`
(`commands/terminal.rs`): the external boundary takes `data: String` and
forwards `data.as_bytes()` to `SessionManager::write`. -/
def terminal_write (m : Registry) (session_id : String) (data : String)
    (env : IoEnv) : Except TermError Unit × Registry × List OsCall :=
  SessionManager.write m session_id (utf8Encode data) env

/-! ### Registry lemmas -/

theorem Registry.get?_eraseKey_self (m : Registry) (sid : String) :
    Registry.get? (Registry.eraseKey m sid) sid = none := by
  induction m with
  | nil => rfl
  | cons p rest ih =>
    obtain ⟨k, s⟩ := p
    by_cases h : k = sid
    · simp [Registry.eraseKey, h, ih]
    · simp [Registry.eraseKey, Registry.get?, h, ih]

theorem Registry.get?_eraseKey_ne (m : Registry) (sid sid' : String) (h : sid' ≠ sid) :
    Registry.get? (Registry.eraseKey m sid) sid' = Registry.get? m sid' := by
  induction m with
  | nil => rfl
  | cons p rest ih =>
    obtain ⟨k, s⟩ := p
    by_cases hk : k = sid
    · subst hk
      simp [Registry.eraseKey, Registry.get?, Ne.symm h, ih]
    · simp [Registry.eraseKey, hk, Registry.get?, ih]

theorem Registry.get?_insert_self (m : Registry) (sid : String) (s : TerminalSession) :
    Registry.get? (Registry.insert m sid s) sid = some s := by
  simp [Registry.insert, Registry.get?]

theorem Registry.get?_insert_ne (m : Registry) (sid sid' : String) (s : TerminalSession)
    (h : sid' ≠ sid) :
    Registry.get? (Registry.insert m sid s) sid' = Registry.get? m sid' := by
  have : sid ≠ sid' := fun hc => h hc.symm
  simp [Registry.insert, Registry.get?, this, Registry.get?_eraseKey_ne m sid sid' h]

/-! ### Claim theorems -/

/-- C1: write, resize and close on an identifier absent from the registry
mapping (never created or already removed) fail with NotFoundError and
have no other effect (registry unchanged, no OS call issued); on an
identifier present in the mapping none of them fails with NotFoundError. -/
theorem notFound_iff_absent
    (m : Registry) (sid : String) (data : List Nat) (env : IoEnv)
    (cols rows : Nat) (res : Except String Unit) :
    (Registry.get? m sid = none →
      SessionManager.write m sid data env = (.error .notFound, m, []) ∧
      SessionManager.resize m sid cols rows res = (.error .notFound, m, []) ∧
      SessionManager.close m sid = (.error .notFound, m)) ∧
    (∀ s, Registry.get? m sid = some s →
      (SessionManager.write m sid data env).1 ≠ .error .notFound ∧
      (SessionManager.resize m sid cols rows res).1 ≠ .error .notFound ∧
      (SessionManager.close m sid).1 ≠ .error .notFound) := by
  constructor
  · intro h
    simp [SessionManager.write, SessionManager.resize, SessionManager.close, h]
  · intro s h
    refine ⟨?_, ?_, ?_⟩
    · rcases henv : env.writeRes with e | u
      · simp [SessionManager.write, h, TerminalSession.write, henv]
      · rcases hf : env.flushRes with e | u <;>
          simp [SessionManager.write, h, TerminalSession.write, henv, hf]
    · rcases hres : res with e | u <;>
        simp [SessionManager.resize, h, TerminalSession.resize, hres]
    · simp [SessionManager.close, h]

/-- Witness for C1 at concrete inputs: the empty registry (absent case)
and a one-session registry (present case). -/
theorem notFound_iff_absent_witness :
    (SessionManager.write [] "a" [65] ⟨.ok (), .ok ()⟩ = (.error .notFound, [], []) ∧
     SessionManager.close [] "a" = (.error .notFound, [])) ∧
    (SessionManager.close [("a", ⟨"a", ⟨[], []⟩, []⟩)] "a").1 ≠ .error .notFound := by
  have h1 := notFound_iff_absent [] "a" [65] ⟨.ok (), .ok ()⟩ 80 24 (.ok ())
  have h2 := notFound_iff_absent [("a", ⟨"a", ⟨[], []⟩, []⟩)] "a" [65] ⟨.ok (), .ok ()⟩
      80 24 (.ok ())
  exact ⟨⟨(h1.1 rfl).1, (h1.1 rfl).2.2⟩, (h2.2 ⟨"a", ⟨[], []⟩, []⟩ rfl).2.2⟩

/-- C3: whenever create_session fails (at PTY allocation, spawn, writer or
reader acquisition), the error is a SpawnError and the call is atomic: the
registry is unchanged, no identifier is handed out (the result is the
error), and no forwarding task is started. -/
theorem create_session_failure_atomic
    (m : Registry) (wd cmd : String) (args : List String) (env : SpawnEnv)
    (e : TermError)
    (h : (SessionManager.create_session m wd cmd args env).result = .error e) :
    (∃ msg, e = TermError.spawnError msg) ∧
    (SessionManager.create_session m wd cmd args env).registry = m ∧
    (SessionManager.create_session m wd cmd args env).tasksStarted = [] := by
  rcases env with ⟨o, sp, wr, rd, fid⟩
  rcases o with oe | ou <;> rcases sp with se | su <;> rcases wr with we | wu <;>
    rcases rd with re | ru <;>
    simp_all [SessionManager.create_session] <;>
    exact ⟨_, h.symm⟩

/-- Witness for C3: a spawn failure at a concrete input leaves the empty
registry empty, starts no task, and reports a SpawnError. -/
theorem create_session_failure_atomic_witness :
    (∃ msg, TermError.spawnError "Failed to spawn command: no such file" =
       TermError.spawnError msg) ∧
    (SessionManager.create_session [] "/w" "sh" []
       ⟨.ok (), .error "no such file", .ok (), .ok (), "i"⟩).registry = [] ∧
    (SessionManager.create_session [] "/w" "sh" []
       ⟨.ok (), .error "no such file", .ok (), .ok (), "i"⟩).tasksStarted = [] :=
  create_session_failure_atomic [] "/w" "sh" []
    ⟨.ok (), .error "no such file", .ok (), .ok (), "i"⟩
    (.spawnError "Failed to spawn command: no such file") rfl

/-- C8: every successful create_session issues exactly the OS calls
opening the PTY at 24 rows x 80 columns with 0x0 pixels and spawning the
command with the fixed environment overlay (TERM=xterm-256color,
COLORTERM=truecolor, LANG=en_US.UTF-8); and every resize passes exactly
the requested columns and rows with pixel dimensions zero. -/
theorem create_fixed_geometry_and_overlay
    (m : Registry) (wd cmd : String) (args : List String) (env : SpawnEnv) (id : String)
    (h : (SessionManager.create_session m wd cmd args env).result = .ok id) :
    (SessionManager.create_session m wd cmd args env).calls =
      [.openPty ⟨24, 80, 0, 0⟩,
       .spawn cmd args wd
         [("TERM", "xterm-256color"), ("COLORTERM", "truecolor"), ("LANG", "en_US.UTF-8")],
       .takeWriter, .cloneReader] ∧
    (∀ (s : TerminalSession) (cols rows : Nat) (res : Except String Unit),
      (TerminalSession.resize s cols rows res).2.2 = [.ptyResize ⟨rows, cols, 0, 0⟩]) := by
  constructor
  · rcases env with ⟨o, sp, wr, rd, fid⟩
    rcases o with oe | ou <;> rcases sp with se | su <;> rcases wr with we | wu <;>
      rcases rd with re | ru <;>
      simp_all [SessionManager.create_session, envOverlay, initialPtySize]
  · intro s cols rows res
    rcases res with e | u <;> simp [TerminalSession.resize]

/-- Witness for C8 at a concrete successful creation. -/
theorem create_fixed_geometry_and_overlay_witness :
    (SessionManager.create_session [] "/w" "sh" ["-l"]
       ⟨.ok (), .ok (), .ok (), .ok (), "i"⟩).calls =
      [.openPty ⟨24, 80, 0, 0⟩,
       .spawn "sh" ["-l"] "/w"
         [("TERM", "xterm-256color"), ("COLORTERM", "truecolor"), ("LANG", "en_US.UTF-8")],
       .takeWriter, .cloneReader] :=
  (create_fixed_geometry_and_overlay [] "/w" "sh" ["-l"]
    ⟨.ok (), .ok (), .ok (), .ok (), "i"⟩ "i" rfl).1

/-- A successful create reports exactly the identifier the UUID generator
supplied. -/
theorem create_result_eq_freshId
    (w : World) (wd cmd : String) (args : List String) (env : SpawnEnv) (id : String)
    (h : (w.step (.create wd cmd args env)).2 = .okId id) : id = env.freshId := by
  rcases env with ⟨o, sp, wr, rd, fid⟩
  rcases o with oe | ou <;> rcases sp with se | su <;> rcases wr with we | wu <;>
    rcases rd with re | ru <;>
    simp_all [World.step, SessionManager.create_session]

/-- C5: two successful create calls, anywhere in the registry's lifetime,
return distinct identifiers, given that the UUID source never repeats a
value (the freshness `uuid::Uuid::new_v4` provides). -/
theorem create_ids_distinct
    (w₁ w₂ : World) (wd₁ cmd₁ wd₂ cmd₂ : String) (args₁ args₂ : List String)
    (env₁ env₂ : SpawnEnv) (id₁ id₂ : String)
    (h₁ : (w₁.step (.create wd₁ cmd₁ args₁ env₁)).2 = .okId id₁)
    (h₂ : (w₂.step (.create wd₂ cmd₂ args₂ env₂)).2 = .okId id₂)
    (hfresh : env₁.freshId ≠ env₂.freshId) :
    id₁ ≠ id₂ := by
  have e₁ := create_result_eq_freshId w₁ wd₁ cmd₁ args₁ env₁ id₁ h₁
  have e₂ := create_result_eq_freshId w₂ wd₂ cmd₂ args₂ env₂ id₂ h₂
  rw [e₁, e₂]
  exact hfresh

/-- Witness for C5: two concrete successful creations with distinct fresh
identifiers yield distinct results. -/
theorem create_ids_distinct_witness : ("a" : String) ≠ "b" :=
  create_ids_distinct ⟨[], []⟩ ⟨[], []⟩ "/w" "sh" "/w" "sh" [] []
    ⟨.ok (), .ok (), .ok (), .ok (), "a"⟩ ⟨.ok (), .ok (), .ok (), .ok (), "b"⟩
    "a" "b" rfl rfl (by decide)

/-- C9: the registry lock discipline of the source: write and resize take
the lock in shared mode (so their lookups may run in parallel with each
other), while create and close take it in exclusive mode (so insertion
and removal exclude each other and every lookup). -/
theorem registry_lock_discipline :
    (∀ (sid : String) (data : List Nat) (env : IoEnv),
       (RegOp.write sid data env).registryLock = some .shared) ∧
    (∀ (sid : String) (cols rows : Nat) (res : Except String Unit),
       (RegOp.resize sid cols rows res).registryLock = some .shared) ∧
    (∀ (wd cmd : String) (args : List String) (env : SpawnEnv),
       (RegOp.create wd cmd args env).registryLock = some .exclusive) ∧
    (∀ sid : String, (RegOp.close sid).registryLock = some .exclusive) ∧
    LockMode.compatible .shared .shared = true ∧
    (∀ m : LockMode, LockMode.compatible .exclusive m = false ∧
       LockMode.compatible m .exclusive = false) := by
  refine ⟨fun _ _ _ => rfl, fun _ _ _ _ => rfl, fun _ _ _ _ => rfl, fun _ => rfl, rfl, ?_⟩
  intro m
  cases m <;> exact ⟨rfl, rfl⟩

/-- C6: with nothing left buffered from previous calls, a session write
succeeds exactly when both the OS write and the flush succeed; on success
exactly the bytes of data, in order, are delivered to the input handle
and the buffer is empty again afterwards; any failure is an IoError. -/
theorem session_write_exact_bytes
    (s : TerminalSession) (data : List Nat) (env : IoEnv)
    (hbuf : s.writer.buffered = []) :
    ((TerminalSession.write s data env).1 = .ok () ↔
       env.writeRes = .ok () ∧ env.flushRes = .ok ()) ∧
    (env.writeRes = .ok () → env.flushRes = .ok () →
       (TerminalSession.write s data env).2.1.writer.delivered =
         s.writer.delivered ++ data ∧
       (TerminalSession.write s data env).2.1.writer.buffered = [] ∧
       (TerminalSession.write s data env).2.2 = [.writeBytes data, .flush]) ∧
    (∀ e, (TerminalSession.write s data env).1 = .error e →
       ∃ msg, e = TermError.ioError msg) := by
  rcases env with ⟨w, f⟩
  rcases w with we | wu <;> rcases f with fe | fu <;>
    simp_all [TerminalSession.write, hbuf]

/-- Witness for C6: a concrete successful write delivers exactly the two
bytes written. -/
theorem session_write_exact_bytes_witness :
    (TerminalSession.write ⟨"a", ⟨[], []⟩, []⟩ [1, 2] ⟨.ok (), .ok ()⟩).2.1.writer.delivered
      = [1, 2] := by
  have h := session_write_exact_bytes ⟨"a", ⟨[], []⟩, []⟩ [1, 2] ⟨.ok (), .ok ()⟩ rfl
  simpa using (h.2.1 rfl rfl).1

/-- Structure of the forwarding task's event stream: as soon as the read
results contain a terminal one (end-of-stream or error), the emitted
events are one output event per preceding chunk followed by the closed
event, which ends the stream. -/
theorem stream_output_eq_of_terminal (sid : String) (rs : List ReadResult)
    (h : rs.any ReadResult.isTerminal = true) :
    stream_output sid rs =
      (rs.takeWhile (fun r => !r.isTerminal)).map
        (fun r => Event.output (outputEventName sid) (from_utf8_lossy r.bytes)) ++
      [Event.closed (closedEventName sid)] := by
  induction rs with
  | nil => simp at h
  | cons r rest ih =>
    cases r with
    | ok data =>
      cases data with
      | nil => simp [stream_output, ReadResult.isTerminal, List.takeWhile]
      | cons b bs =>
        have hrest : rest.any ReadResult.isTerminal = true := by
          simpa [ReadResult.isTerminal] using h
        simp [stream_output, ReadResult.isTerminal, List.takeWhile, ReadResult.bytes,
          ih hrest]
    | err msg => simp [stream_output, ReadResult.isTerminal, List.takeWhile]

/-- C2: once the read stream reaches its first end-of-stream or read
error, the forwarding task's whole event stream consists of the output
events for the chunks read before it followed by exactly one closed event
for the session's identifier; the closed event is the last event ever
emitted, so no output for the session follows it, and the count of closed
events over the task's whole life is one. -/
theorem closed_event_exactly_once (sid : String) (rs : List ReadResult)
    (h : rs.any ReadResult.isTerminal = true) :
    stream_output sid rs =
      (rs.takeWhile (fun r => !r.isTerminal)).map
        (fun r => Event.output (outputEventName sid) (from_utf8_lossy r.bytes)) ++
      [Event.closed (closedEventName sid)] ∧
    (stream_output sid rs).countP
      (fun e => match e with | .closed _ => true | .output _ _ => false) = 1 ∧
    (stream_output sid rs).getLast? = some (.closed (closedEventName sid)) := by
  have heq := stream_output_eq_of_terminal sid rs h
  refine ⟨heq, ?_, ?_⟩
  · rw [heq, List.countP_append, List.countP_map]
    simp [Function.comp, List.countP_cons]
  · rw [heq, List.getLast?_concat]

/-- Witness for C2 on a concrete session: two chunks then process exit. -/
theorem closed_event_exactly_once_witness :
    stream_output "s" [.ok [104], .ok [105], .ok []] =
      [.output "terminal-output-s" "h", .output "terminal-output-s" "i",
       .closed "terminal-closed-s"] := by
  have h := closed_event_exactly_once "s" [.ok [104], .ok [105], .ok []] (by decide)
  rw [h.1]
  simp [List.takeWhile, ReadResult.isTerminal, ReadResult.bytes, from_utf8_lossy,
    utf8DecodeLossy, outputEventName, closedEventName]

/-- A create_session call never drops an identifier that is present in
the registry. -/
theorem create_preserves_presence
    (m : Registry) (wd cmd : String) (args : List String) (env : SpawnEnv)
    (sid : String) (s : TerminalSession) (h : Registry.get? m sid = some s) :
    Registry.get? (SessionManager.create_session m wd cmd args env).registry sid ≠ none := by
  rcases env with ⟨o, sp, wr, rd, fid⟩
  rcases o with oe | ou <;> rcases sp with se | su <;> rcases wr with we | wu <;>
    rcases rd with re | ru <;>
    simp_all [SessionManager.create_session]
  by_cases hfid : sid = fid
  · subst hfid
    simp [Registry.get?_insert_self]
  · simp [Registry.get?_insert_ne m fid sid _ hfid, h]

/-- A manager write never drops an identifier that is present in the
registry. -/
theorem manager_write_preserves_presence
    (m : Registry) (sid' : String) (data : List Nat) (env : IoEnv)
    (sid : String) (s : TerminalSession) (h : Registry.get? m sid = some s) :
    Registry.get? (SessionManager.write m sid' data env).2.1 sid ≠ none := by
  rcases hget : Registry.get? m sid' with _ | s0
  · simp [SessionManager.write, hget, h]
  · by_cases hsid : sid = sid'
    · subst hsid
      simp [SessionManager.write, hget, Registry.get?_insert_self]
    · simp [SessionManager.write, hget, Registry.get?_insert_ne m sid' sid _ hsid, h]

/-- A manager resize never drops an identifier that is present in the
registry. -/
theorem manager_resize_preserves_presence
    (m : Registry) (sid' : String) (cols rows : Nat) (res : Except String Unit)
    (sid : String) (s : TerminalSession) (h : Registry.get? m sid = some s) :
    Registry.get? (SessionManager.resize m sid' cols rows res).2.1 sid ≠ none := by
  rcases hget : Registry.get? m sid' with _ | s0
  · simp [SessionManager.resize, hget, h]
  · by_cases hsid : sid = sid'
    · subst hsid
      simp [SessionManager.resize, hget, Registry.get?_insert_self]
    · simp [SessionManager.resize, hget, Registry.get?_insert_ne m sid' sid _ hsid, h]

/-- Closing one identifier never drops a different one. -/
theorem manager_close_preserves_other
    (m : Registry) (sid' sid : String) (s : TerminalSession)
    (hsid : sid ≠ sid') (h : Registry.get? m sid = some s) :
    Registry.get? (SessionManager.close m sid').2 sid ≠ none := by
  rcases hget : Registry.get? m sid' with _ | s0 <;>
    simp [SessionManager.close, hget, h, Registry.get?_eraseKey_ne m sid' sid hsid]

/-- C4: the output-forwarding task never modifies the registry: observing
any read result (data, end-of-stream, or error) leaves the registry
identical and the session still addressable; across all operations the
only one that can remove a present identifier is an explicit close of
that identifier, and such a close succeeds and removes the entry. -/
theorem forwarding_task_frame
    (w : World) (sid : String) (r : ReadResult) (s : TerminalSession)
    (hmem : Registry.get? w.registry sid = some s) :
    (w.step (.taskRead sid r)).1.registry = w.registry ∧
    Registry.get? (w.step (.taskRead sid r)).1.registry sid = some s ∧
    (∀ op : RegOp, Registry.get? (w.step op).1.registry sid = none → op = .close sid) ∧
    (SessionManager.close w.registry sid).1 = .ok () ∧
    Registry.get? (SessionManager.close w.registry sid).2 sid = none := by
  refine ⟨rfl, hmem, ?_, ?_, ?_⟩
  · intro op hnone
    cases op with
    | create wd cmd args env =>
        exact absurd hnone (create_preserves_presence w.registry wd cmd args env sid s hmem)
    | write sid' data env =>
        exact absurd hnone
          (manager_write_preserves_presence w.registry sid' data env sid s hmem)
    | resize sid' cols rows res =>
        exact absurd hnone
          (manager_resize_preserves_presence w.registry sid' cols rows res sid s hmem)
    | close sid' =>
        by_cases hsid : sid' = sid
        · rw [hsid]
        · exact absurd hnone
            (manager_close_preserves_other w.registry sid' sid s (Ne.symm hsid) hmem)
    | taskRead sid' r' =>
        simp only [World.step] at hnone
        exact absurd hnone (by simp [hmem])
  · simp [SessionManager.close, hmem]
  · simp [SessionManager.close, hmem, Registry.get?_eraseKey_self]

/-- Witness for C4 on a one-session registry observing end-of-stream. -/
theorem forwarding_task_frame_witness :
    ((⟨[("a", ⟨"a", ⟨[], []⟩, []⟩)], []⟩ : World).step
        (.taskRead "a" (.ok []))).1.registry = [("a", ⟨"a", ⟨[], []⟩, []⟩)] ∧
    Registry.get?
      (SessionManager.close [("a", ⟨"a", ⟨[], []⟩, []⟩)] "a").2 "a" = none := by
  have h := forwarding_task_frame ⟨[("a", ⟨"a", ⟨[], []⟩, []⟩)], []⟩ "a" (.ok [])
      ⟨"a", ⟨[], []⟩, []⟩ rfl
  exact ⟨h.1, h.2.2.2.2⟩

/-- C7: a chunk of n bytes (1 <= n <= 4096) read by the forwarding task
produces exactly one output event, whose payload is the lossy UTF-8
decoding of those bytes and whose name is derived from the session
identifier injectively, so distinct sessions emit under distinct names. -/
theorem chunk_emits_one_output_event
    (id id' : String) (data : List Nat) (rest : List ReadResult)
    (h1 : 1 ≤ data.length) (h2 : data.length ≤ 4096) :
    stream_output id (.ok data :: rest) =
      .output (outputEventName id) (from_utf8_lossy data) :: stream_output id rest ∧
    (outputEventName id = outputEventName id' ↔ id = id') := by
  constructor
  · cases data with
    | nil => simp at h1
    | cons b bs => simp [stream_output]
  · constructor
    · intro h
      have hd := congrArg String.data h
      simp only [outputEventName, String.data_append] at hd
      exact String.ext (List.append_cancel_left hd)
    · intro h
      rw [h]

/-- Witness for C7: a concrete two-byte chunk. -/
theorem chunk_emits_one_output_event_witness :
    stream_output "s" [.ok [104, 105]] =
      [.output "terminal-output-s" "hi"] ∧ ("s" : String) ≠ "t" := by
  have h := chunk_emits_one_output_event "s" "t" [104, 105] [] (by decide) (by decide)
  constructor
  · rw [h.1]
    simp [from_utf8_lossy, utf8DecodeLossy, outputEventName, stream_output]
  · intro hc
    have := h.2.mpr hc
    simp [outputEventName] at this

/-- A Char is a Unicode scalar value: below the surrogate range or
between it and 0x110000. -/
theorem char_toNat_valid (c : Char) :
    c.toNat < 0xD800 ∨ (0xDFFF < c.toNat ∧ c.toNat < 0x110000) := by
  have h := c.valid
  simp only [UInt32.isValidChar, Nat.isValidChar] at h
  exact h

/-- Prepending a one-byte (ASCII) sequence preserves UTF-8 validity. -/
theorem validUtf8_cons1 (b : Nat) (l : List Nat) (h : b < 0x80) :
    validUtf8 (b :: l) = validUtf8 l := by
  rw [validUtf8.eq_def]
  simp only [if_pos h]

/-- Prepending a well-formed two-byte sequence preserves UTF-8 validity. -/
theorem validUtf8_cons2 (b0 b1 : Nat) (l : List Nat)
    (h0 : 0xC2 ≤ b0) (h1 : b0 ≤ 0xDF) (hc : isCont b1 = true) :
    validUtf8 (b0 :: b1 :: l) = validUtf8 l := by
  have hn1 : ¬ b0 < 0x80 := by omega
  have hn2 : ¬ b0 < 0xC2 := by omega
  have h3 : b0 < 0xE0 := by omega
  rw [validUtf8.eq_def]
  simp only [if_neg hn1, if_neg hn2, if_pos h3, hc, Bool.true_and]

/-- Prepending a well-formed three-byte sequence preserves UTF-8
validity. -/
theorem validUtf8_cons3 (b0 b1 b2 : Nat) (l : List Nat)
    (h0 : 0xE0 ≤ b0) (h1 : b0 ≤ 0xEF)
    (hs : validSecondOf3 b0 b1 = true) (hc : isCont b2 = true) :
    validUtf8 (b0 :: b1 :: b2 :: l) = validUtf8 l := by
  have hn1 : ¬ b0 < 0x80 := by omega
  have hn2 : ¬ b0 < 0xC2 := by omega
  have hn3 : ¬ b0 < 0xE0 := by omega
  have h4 : b0 < 0xF0 := by omega
  rw [validUtf8.eq_def]
  simp only [if_neg hn1, if_neg hn2, if_neg hn3, if_pos h4, hs, hc, Bool.true_and]

/-- Prepending a well-formed four-byte sequence preserves UTF-8
validity. -/
theorem validUtf8_cons4 (b0 b1 b2 b3 : Nat) (l : List Nat)
    (h0 : 0xF0 ≤ b0) (h1 : b0 ≤ 0xF4)
    (hs : validSecondOf4 b0 b1 = true) (hc2 : isCont b2 = true)
    (hc3 : isCont b3 = true) :
    validUtf8 (b0 :: b1 :: b2 :: b3 :: l) = validUtf8 l := by
  have hn1 : ¬ b0 < 0x80 := by omega
  have hn2 : ¬ b0 < 0xC2 := by omega
  have hn3 : ¬ b0 < 0xE0 := by omega
  have hn4 : ¬ b0 < 0xF0 := by omega
  have h5 : b0 < 0xF5 := by omega
  rw [validUtf8.eq_def]
  simp only [if_neg hn1, if_neg hn2, if_neg hn3, if_neg hn4, if_pos h5, hs, hc2, hc3,
    Bool.true_and]

/-- The UTF-8 encoding of any Unicode scalar value (not a surrogate,
below 0x110000) is a well-formed sequence: prepending it preserves
validity. -/
theorem validUtf8_encodeScalar (v : Nat) (l : List Nat)
    (hv : v < 0xD800 ∨ (0xDFFF < v ∧ v < 0x110000)) :
    validUtf8 (utf8EncodeScalar v ++ l) = validUtf8 l := by
  by_cases h1 : v < 0x80
  · simp only [utf8EncodeScalar, if_pos h1, List.cons_append, List.nil_append]
    exact validUtf8_cons1 _ _ h1
  · by_cases h2 : v < 0x800
    · simp only [utf8EncodeScalar, if_neg h1, if_pos h2, List.cons_append, List.nil_append]
      refine validUtf8_cons2 _ _ _ ?_ ?_ ?_
      · omega
      · omega
      · simp only [isCont, Bool.and_eq_true, decide_eq_true_eq]
        omega
    · by_cases h3 : v < 0x10000
      · simp only [utf8EncodeScalar, if_neg h1, if_neg h2, if_pos h3, List.cons_append,
          List.nil_append]
        refine validUtf8_cons3 _ _ _ _ ?_ ?_ ?_ ?_
        · omega
        · omega
        · simp only [validSecondOf3]
          rcases hv with hv | hv <;>
            (split_ifs with hE0 hED <;>
              simp only [isCont, Bool.and_eq_true, decide_eq_true_eq] <;> omega)
        · simp only [isCont, Bool.and_eq_true, decide_eq_true_eq]
          omega
      · have h4 : v < 0x110000 := by
          rcases hv with hv | hv <;> omega
        simp only [utf8EncodeScalar, if_neg h1, if_neg h2, if_neg h3, List.cons_append,
          List.nil_append]
        refine validUtf8_cons4 _ _ _ _ _ ?_ ?_ ?_ ?_ ?_
        · omega
        · omega
        · simp only [validSecondOf4]
          split_ifs with hF0 hF4 <;>
            simp only [isCont, Bool.and_eq_true, decide_eq_true_eq] <;> omega
        · simp only [isCont, Bool.and_eq_true, decide_eq_true_eq]
          omega
        · simp only [isCont, Bool.and_eq_true, decide_eq_true_eq]
          omega

/-- The UTF-8 encoding of any character is a well-formed sequence. -/
theorem validUtf8_encodeChar (c : Char) (l : List Nat) :
    validUtf8 (utf8EncodeChar c ++ l) = validUtf8 l :=
  validUtf8_encodeScalar c.toNat l (char_toNat_valid c)

/-- The UTF-8 encoding of any string is valid UTF-8. -/
theorem validUtf8_utf8Encode (s : String) : validUtf8 (utf8Encode s) = true := by
  rw [utf8Encode]
  generalize s.data = l
  induction l with
  | nil => rfl
  | cons c cs ih =>
    rw [List.foldr_cons, validUtf8_encodeChar]
    exact ih

/-- C10: the external command terminal_write takes its payload as text
and hands SessionManager.write exactly the UTF-8 encoding of that text;
since every encoding of a string is valid UTF-8, only valid UTF-8 byte
sequences can reach a session through the external interface. -/
theorem terminal_write_utf8_boundary
    (m : Registry) (sid : String) (data : String) (env : IoEnv) :
    terminal_write m sid data env = SessionManager.write m sid (utf8Encode data) env ∧
    validUtf8 (utf8Encode data) = true :=
  ⟨rfl, validUtf8_utf8Encode data⟩

end PromptConduit
